import Mathlib

/-!
Verification model of the DonutAFK Minecraft/Discord bridge bot
(`src/index.js`, class `MinecraftDiscordBot`).

The mutable fields of the `MinecraftDiscordBot` instance that the session
logic reads or writes are embedded as the record `BotState`.  Each handler
of the source (the HTTP routes, the slash-command handlers, the reaction
handler branches, the mineflayer lifecycle handlers, `connectToMinecraft`,
`attemptReconnect`, the reconnect `setTimeout` callback, `getStatusText`
and `extractAuthDetails`) is translated into a Lean function on `BotState`.

Bookkeeping fields added by the embedding (not fields of the source
object, but direct counters of its observable actions):
  - `pendingTimers`  : number of reconnect `setTimeout` callbacks that have
    been scheduled by `attemptReconnect` and have not fired yet;
  - `connectCalls`   : cumulative number of `mineflayer.createBot` calls;
  - `outstanding`    : number of connection attempts currently in flight
    (incremented by `mineflayer.createBot`, dropped to zero when a
    lifecycle event of the attempt - login, end, error, kicked - runs).

External data (the bot username, world label, coordinates, the auth url
and code of the `auth_pending` event, chat/stderr text) arrives as event
payloads.
-/

/-- Mutable state of the `MinecraftDiscordBot` instance (src/index.js,
constructor lines 24-67), restricted to the fields the session-bridge
logic reads or writes, plus the bookkeeping counters described above.
`hasBot` models `this.minecraftBot !== null`; `lastAuthUser` and
`authMessage` model the non-nullness of `this.lastAuthUser` and
`this.authMessage`. -/
structure BotState where
  isConnected : Bool
  isConnecting : Bool
  shouldJoin : Bool
  reconnectAttempts : Nat
  maxReconnectAttempts : Nat
  hasBot : Bool
  username : String
  authUrl : Option String
  userCode : Option String
  lastAuthUser : Bool
  authMessage : Bool
  currentWorld : String
  currentCoords : Int × Int × Int
  pendingTimers : Nat
  connectCalls : Nat
  outstanding : Nat
  deriving DecidableEq

/-- The constructor state (src/index.js lines 24-67):
`maxReconnectAttempts = 10000`, everything else false / 0 / null /
"Unknown". -/
def initState : BotState :=
  { isConnected := false
    isConnecting := false
    shouldJoin := false
    reconnectAttempts := 0
    maxReconnectAttempts := 10000
    hasBot := false
    username := ""
    authUrl := none
    userCode := none
    lastAuthUser := false
    authMessage := false
    currentWorld := "Unknown"
    currentCoords := (0, 0, 0)
    pendingTimers := 0
    connectCalls := 0
    outstanding := 0 }

/-- `connectToMinecraft` (src/index.js lines 440-497).  If `isConnecting`
is already set it returns at once without touching anything; otherwise it
quits any existing bot, sets `isConnecting`, and calls
`mineflayer.createBot` (a fresh bot object: `hasBot := true`, one more
connect call, one more attempt in flight). -/
def connectToMinecraft (s : BotState) : BotState :=
  if s.isConnecting then s
  else
    { s with
      isConnecting := true
      hasBot := true
      connectCalls := s.connectCalls + 1
      outstanding := s.outstanding + 1 }

/-- `attemptReconnect` (src/index.js lines 406-438).  Early return when
`shouldJoin` is false or a connection is already in progress; when the
attempt counter has reached `maxReconnectAttempts` it clears `shouldJoin`
and stops; otherwise it increments the counter and schedules one
`setTimeout` callback (delay abstracted away; the callback itself is
`reconnectTimerFire` below). -/
def attemptReconnect (s : BotState) : BotState :=
  if !s.shouldJoin then s
  else if s.isConnecting then s
  else if s.maxReconnectAttempts ≤ s.reconnectAttempts then
    { s with shouldJoin := false }
  else
    { s with
      reconnectAttempts := s.reconnectAttempts + 1
      pendingTimers := s.pendingTimers + 1 }

/-- The `setTimeout` callback scheduled by `attemptReconnect`
(src/index.js lines 433-437): when it fires it calls
`connectToMinecraft` only if `shouldJoin` is still set and the bot is
neither connected nor connecting. -/
def reconnectTimerFire (s : BotState) : BotState :=
  if s.pendingTimers = 0 then s
  else
    let s1 := { s with pendingTimers := s.pendingTimers - 1 }
    if s1.shouldJoin && !s1.isConnected && !s1.isConnecting then
      connectToMinecraft s1
    else s1

/-- The `login` lifecycle handler (src/index.js lines 541-573): set
connected, clear `isConnecting`, clear `authUrl`/`userCode`
(unconditionally, lines 545-546), reset the attempt counter.  The auth
message is nulled only inside the `try`, after `await
this.authMessage.delete()` succeeded (lines 562-570); when the Discord
delete throws, the `catch` just logs and `authMessage` stays set.  The
username of the logged in bot arrives as the payload `u`, and the
success of the external delete call as the payload `deleteOk`. -/
def loginHandler (s : BotState) (u : String) (deleteOk : Bool) : BotState :=
  { s with
    isConnected := true
    isConnecting := false
    username := u
    authUrl := none
    userCode := none
    reconnectAttempts := 0
    authMessage := if deleteOk then false else s.authMessage
    outstanding := 0 }

/-- The `end` lifecycle handler (src/index.js lines 606-620): clear the
connection flags, null the bot, reset world and coordinates, then run the
reconnect policy when `shouldJoin` is set. -/
def endHandler (s : BotState) : BotState :=
  let s1 :=
    { s with
      isConnected := false
      isConnecting := false
      hasBot := false
      currentWorld := "Unknown"
      currentCoords := (0, 0, 0)
      outstanding := 0 }
  if s1.shouldJoin then attemptReconnect s1 else s1

/-- The `error` lifecycle handler (src/index.js lines 622-635): like
`end`, but the source does NOT null `this.minecraftBot` here. -/
def errorHandler (s : BotState) : BotState :=
  let s1 :=
    { s with
      isConnected := false
      isConnecting := false
      currentWorld := "Unknown"
      currentCoords := (0, 0, 0)
      outstanding := 0 }
  if s1.shouldJoin then attemptReconnect s1 else s1

/-- The `kicked` lifecycle handler (src/index.js lines 637-651): same
shape as `end` (bot nulled). -/
def kickedHandler (s : BotState) : BotState :=
  let s1 :=
    { s with
      isConnected := false
      isConnecting := false
      hasBot := false
      currentWorld := "Unknown"
      currentCoords := (0, 0, 0)
      outstanding := 0 }
  if s1.shouldJoin then attemptReconnect s1 else s1

/-- The `auth_pending` handler (src/index.js lines 653-658). -/
def authPendingHandler (s : BotState) (url code : String) : BotState :=
  { s with authUrl := some url, userCode := some code }

/-- The `move` handler together with `updatePositionInfo`
(src/index.js lines 396-404, 594-596): position is copied from the bot
entity only while the bot object exists. -/
def moveHandler (s : BotState) (c : Int × Int × Int) : BotState :=
  if s.hasBot then { s with currentCoords := c } else s

/-- The `respawn` handler (src/index.js lines 598-604): world label is
copied from the bot only while the bot object exists. -/
def respawnHandler (s : BotState) (w : String) : BotState :=
  if s.hasBot then { s with currentWorld := w } else s

/-- The `/connect` slash-command handler (src/index.js lines 883-900):
no-op reply when already connected; otherwise set `shouldJoin`, reset the
attempt counter and call `connectToMinecraft`. -/
def handleConnectCommand (s : BotState) : BotState :=
  if s.isConnected then s
  else connectToMinecraft { s with shouldJoin := true, reconnectAttempts := 0 }

/-- The HTTP `POST /connect` route (src/index.js lines 163-173): same
logic as the slash command. -/
def connectRoute (s : BotState) : BotState :=
  if s.isConnected then s
  else connectToMinecraft { s with shouldJoin := true, reconnectAttempts := 0 }

/-- The approval-reaction branch of the reaction handler (✅ emoji,
src/index.js lines 256-282): set `shouldJoin`, remember the reacting
user in `lastAuthUser`, reset the attempt counter, send the auth embed
(`authMessage` becomes non-null) and call `connectToMinecraft`.  Note:
this branch has no already-connected guard. -/
def reactionJoin (s : BotState) : BotState :=
  connectToMinecraft
    { s with
      shouldJoin := true
      lastAuthUser := true
      reconnectAttempts := 0
      authMessage := true }

/-- The `/disconnect` slash-command handler (src/index.js lines 903-925):
no-op reply when not connected; otherwise clear `shouldJoin`, reset the
attempt counter and quit and null the bot.  `isConnected` is NOT cleared
here - only the `end` event clears it. -/
def handleDisconnectCommand (s : BotState) : BotState :=
  if !s.isConnected then s
  else { s with shouldJoin := false, reconnectAttempts := 0, hasBot := false }

/-- The HTTP `POST /disconnect` route (src/index.js lines 175-186): like
the slash command but without the connected guard. -/
def disconnectRoute (s : BotState) : BotState :=
  { s with shouldJoin := false, reconnectAttempts := 0, hasBot := false }

/-- The rejection-reaction branch of the reaction handler (❌ emoji,
src/index.js lines 283-291): clear `shouldJoin`, reset the attempt
counter, quit and null the bot. -/
def reactionLeave (s : BotState) : BotState :=
  { s with shouldJoin := false, reconnectAttempts := 0, hasBot := false }

/-- Result of a chat-send intent. -/
inductive ChatResult where
  | sent
  | notConnected
  | invalidMessage
  deriving DecidableEq

/-- The HTTP `POST /chat` route (src/index.js lines 189-202): rejected
when not connected or the bot object is null; rejected when the message
is missing, not a string, or empty (falsy in the source); otherwise the
message is forwarded.  The state is returned unchanged in every case
(forwarding happens on the external bot object). -/
def chatRoute (s : BotState) (message : Option String) : BotState × ChatResult :=
  if !s.isConnected || !s.hasBot then
    (s, ChatResult.notConnected)
  else
    match message with
    | none => (s, ChatResult.invalidMessage)
    | some m => if m = "" then (s, ChatResult.invalidMessage) else (s, ChatResult.sent)

/-- The `/message` slash-command handler (src/index.js lines 783-808):
rejected when not connected or the bot object is null; otherwise the
message is forwarded.  State unchanged in every case. -/
def handleMessageCommand (s : BotState) (message : String) : BotState × ChatResult :=
  match message with
  | _ =>
    if !s.isConnected || !s.hasBot then
      (s, ChatResult.notConnected)
    else
      (s, ChatResult.sent)

/-- `getStatusText` (src/index.js lines 380-394), verbatim precedence:
auth challenge, then connected-with-bot, then the shouldJoin branch with
its nested attempt-counter check, then disconnected. -/
def getStatusText (s : BotState) : String :=
  if s.authUrl.isSome && s.userCode.isSome then
    "⏳ Waiting for Microsoft authentication..."
  else if s.isConnected && s.hasBot then
    "✅ Connected as " ++ s.username
  else if s.shouldJoin && !s.isConnected then
    if 0 < s.reconnectAttempts then
      "🔄 Reconnecting... (" ++ toString s.reconnectAttempts ++ "/"
        ++ toString s.maxReconnectAttempts ++ ")"
    else
      "⏳ Connecting..."
  else
    "❌ Disconnected"

/-- Character class of the code capture group `[A-Z0-9]` in the regex of
`extractAuthDetails`. -/
def isAuthCodeChar (c : Char) : Bool :=
  (decide ('A' ≤ c) && decide (c ≤ 'Z')) || (decide ('0' ≤ c) && decide (c ≤ '9'))

/-- First match of the regex `code ([A-Z0-9]+)` over a character list:
find the first position where the literal `code ` is followed by at
least one class character and return the maximal captured run; when the
literal occurs but no class character follows, the search continues from
the next position, as regex backtracking does. -/
def findCode : List Char → Option String
  | 'c' :: 'o' :: 'd' :: 'e' :: ' ' :: rest =>
    match rest.takeWhile isAuthCodeChar with
    | [] => findCode ('o' :: 'd' :: 'e' :: ' ' :: rest)
    | tok => some (String.mk tok)
  | _ :: cs => findCode cs
  | [] => none

/-- `extractAuthDetails` (src/index.js lines 661-700): match the code
regex against the message; publish the code (edit the auth message, or
send a fresh channel message) only when both `lastAuthUser` and
`authMessage` are set.  The returned option is the published code; no
instance field is written by this method. -/
def extractAuthDetails (s : BotState) (message : String) : Option String :=
  match findCode message.data with
  | some code =>
    if s.lastAuthUser && s.authMessage then some code else none
  | none => none

/-- True when `needle` occurs as a contiguous substring of the character
list (the semantics of `String.prototype.includes`). -/
def subsearch (needle : List Char) : List Char → Bool
  | [] => needle.isEmpty
  | c :: cs => List.isPrefixOf needle (c :: cs) || subsearch needle cs

/-- `hay.includes(needle)` of the source. -/
def containsSub (hay needle : String) : Bool :=
  subsearch needle.data hay.data

/-- The stderr/stdout capture installed by `setupConsoleCapture`
(src/index.js lines 499-534): a text fragment is routed to
`extractAuthDetails` only when it contains both `microsoft.com/link` and
`use the code`.  Returns the (unchanged) state and the published code,
if any. -/
def observeFragment (s : BotState) (message : String) : BotState × Option String :=
  if containsSub message "microsoft.com/link" && containsSub message "use the code" then
    (s, extractAuthDetails s message)
  else
    (s, none)

/-- External triggers of the bridge: operator intents (HTTP routes, slash
commands, reactions), mineflayer lifecycle events, the reconnect timer
callback, and side-channel text fragments. -/
inductive Event where
  | joinHttp
  | joinSlash
  | joinReaction
  | leaveHttp
  | leaveSlash
  | leaveReaction
  | login (username : String) (deleteOk : Bool)
  | endEv
  | errorEv
  | kicked
  | timerFire
  | authPending (url code : String)
  | moveEv (c : Int × Int × Int)
  | respawnEv (w : String)
  | chatHttp (m : Option String)
  | chatSlash (m : String)
  | fragment (m : String)
  deriving DecidableEq

/-- One step of the event-driven execution.  Environment assumption on
`login`: mineflayer fires `login` only for the connection attempt just
initiated, so the handler runs only while an attempt is in flight
(`isConnecting`); every other event may fire at any time. -/
def step (s : BotState) (e : Event) : BotState :=
  match e with
  | Event.joinHttp => connectRoute s
  | Event.joinSlash => handleConnectCommand s
  | Event.joinReaction => reactionJoin s
  | Event.leaveHttp => disconnectRoute s
  | Event.leaveSlash => handleDisconnectCommand s
  | Event.leaveReaction => reactionLeave s
  | Event.login u d => if s.isConnecting then loginHandler s u d else s
  | Event.endEv => endHandler s
  | Event.errorEv => errorHandler s
  | Event.kicked => kickedHandler s
  | Event.timerFire => reconnectTimerFire s
  | Event.authPending url code => authPendingHandler s url code
  | Event.moveEv c => moveHandler s c
  | Event.respawnEv w => respawnHandler s w
  | Event.chatHttp m => (chatRoute s m).1
  | Event.chatSlash m => (handleMessageCommand s m).1
  | Event.fragment m => (observeFragment s m).1

/-- Run a sequence of events from a given state. -/
def runFrom (s : BotState) (es : List Event) : BotState :=
  es.foldl step s

/-- Run a sequence of events from the constructor state. -/
def run (es : List Event) : BotState :=
  runFrom initState es

/-- The join intents (✅ reaction, `/connect` slash command, HTTP
`POST /connect`). -/
def isJoinEvent : Event → Bool
  | Event.joinHttp => true
  | Event.joinSlash => true
  | Event.joinReaction => true
  | _ => false

/-- The status-text precedence exactly as the specification words it
(spec §4.3), with `phase == Connected` read as the `isConnected` flag:
auth challenge, then connected, then shouldJoin with a positive attempt
counter, then shouldJoin, then disconnected.  Comparison definition for
the refinement claim about `getStatusText`. -/
def specStatusText (s : BotState) : String :=
  if s.authUrl.isSome && s.userCode.isSome then
    "⏳ Waiting for Microsoft authentication..."
  else if s.isConnected then
    "✅ Connected as " ++ s.username
  else if s.shouldJoin && decide (0 < s.reconnectAttempts) then
    "🔄 Reconnecting... (" ++ toString s.reconnectAttempts ++ "/"
      ++ toString s.maxReconnectAttempts ++ ")"
  else if s.shouldJoin then
    "⏳ Connecting..."
  else
    "❌ Disconnected"

/-! ### Basic unfolding and frame lemmas -/

theorem runFrom_nil (s : BotState) : runFrom s [] = s := rfl

theorem runFrom_cons (s : BotState) (e : Event) (es : List Event) :
    runFrom s (e :: es) = runFrom (step s e) es := rfl

theorem chatRoute_fst (s : BotState) (m : Option String) : (chatRoute s m).1 = s := by
  cases m <;> simp only [chatRoute] <;> split_ifs <;> rfl

theorem handleMessageCommand_fst (s : BotState) (m : String) :
    (handleMessageCommand s m).1 = s := by
  simp only [handleMessageCommand]; split_ifs <;> rfl

theorem observeFragment_fst (s : BotState) (m : String) : (observeFragment s m).1 = s := by
  simp only [observeFragment]; split_ifs <;> rfl

theorem attemptReconnect_outstanding (s : BotState) :
    (attemptReconnect s).outstanding = s.outstanding := by
  simp only [attemptReconnect]; split_ifs <;> rfl

theorem attemptReconnect_isConnecting (s : BotState) :
    (attemptReconnect s).isConnecting = s.isConnecting := by
  simp only [attemptReconnect]; split_ifs <;> rfl

theorem attemptReconnect_isConnected (s : BotState) :
    (attemptReconnect s).isConnected = s.isConnected := by
  simp only [attemptReconnect]; split_ifs <;> rfl

theorem attemptReconnect_connectCalls (s : BotState) :
    (attemptReconnect s).connectCalls = s.connectCalls := by
  simp only [attemptReconnect]; split_ifs <;> rfl

theorem attemptReconnect_hasBot (s : BotState) :
    (attemptReconnect s).hasBot = s.hasBot := by
  simp only [attemptReconnect]; split_ifs <;> rfl

theorem attemptReconnect_max (s : BotState) :
    (attemptReconnect s).maxReconnectAttempts = s.maxReconnectAttempts := by
  simp only [attemptReconnect]; split_ifs <;> rfl

theorem connectToMinecraft_reconnectAttempts (s : BotState) :
    (connectToMinecraft s).reconnectAttempts = s.reconnectAttempts := by
  simp only [connectToMinecraft]; split_ifs <;> rfl

theorem connectToMinecraft_max (s : BotState) :
    (connectToMinecraft s).maxReconnectAttempts = s.maxReconnectAttempts := by
  simp only [connectToMinecraft]; split_ifs <;> rfl

/-! ### Invariant: a single connection attempt in flight -/

/-- At most one `mineflayer.createBot` call is unresolved, and exactly
when the `isConnecting` flag is up. -/
def OneInFlight (s : BotState) : Prop :=
  s.outstanding = if s.isConnecting = true then 1 else 0

theorem connectToMinecraft_oneInFlight (s : BotState) (h : OneInFlight s) :
    OneInFlight (connectToMinecraft s) := by
  unfold OneInFlight at h ⊢
  by_cases hc : s.isConnecting = true
  · simpa [connectToMinecraft, hc] using h
  · have h0 : s.outstanding = 0 := by simpa [hc] using h
    simp [connectToMinecraft, hc, h0]

theorem step_oneInFlight (s : BotState) (e : Event) (h : OneInFlight s) :
    OneInFlight (step s e) := by
  cases e with
  | joinHttp =>
    simp only [step, connectRoute]
    split_ifs with hc
    · exact h
    · exact connectToMinecraft_oneInFlight _ (by simpa [OneInFlight] using h)
  | joinSlash =>
    simp only [step, handleConnectCommand]
    split_ifs with hc
    · exact h
    · exact connectToMinecraft_oneInFlight _ (by simpa [OneInFlight] using h)
  | joinReaction =>
    simp only [step, reactionJoin]
    exact connectToMinecraft_oneInFlight _ (by simpa [OneInFlight] using h)
  | leaveHttp => simpa [step, disconnectRoute, OneInFlight] using h
  | leaveSlash =>
    simp only [step, handleDisconnectCommand]
    split_ifs with hc
    · exact h
    · simpa [OneInFlight] using h
  | leaveReaction => simpa [step, reactionLeave, OneInFlight] using h
  | login u d =>
    simp only [step]
    split_ifs with hc
    · simp [loginHandler, OneInFlight]
    · exact h
  | endEv =>
    simp only [step, endHandler]
    split_ifs with hj
    · unfold OneInFlight
      rw [attemptReconnect_outstanding, attemptReconnect_isConnecting]
      simp
    · simp [OneInFlight]
  | errorEv =>
    simp only [step, errorHandler]
    split_ifs with hj
    · unfold OneInFlight
      rw [attemptReconnect_outstanding, attemptReconnect_isConnecting]
      simp
    · simp [OneInFlight]
  | kicked =>
    simp only [step, kickedHandler]
    split_ifs with hj
    · unfold OneInFlight
      rw [attemptReconnect_outstanding, attemptReconnect_isConnecting]
      simp
    · simp [OneInFlight]
  | timerFire =>
    simp only [step, reconnectTimerFire]
    split_ifs with h0 hg
    · exact h
    · exact connectToMinecraft_oneInFlight _ (by simpa [OneInFlight] using h)
    · simpa [OneInFlight] using h
  | authPending url code => simpa [step, authPendingHandler, OneInFlight] using h
  | moveEv c =>
    simp only [step, moveHandler]
    split_ifs with hb
    · simpa [OneInFlight] using h
    · exact h
  | respawnEv w =>
    simp only [step, respawnHandler]
    split_ifs with hb
    · simpa [OneInFlight] using h
    · exact h
  | chatHttp m => simp only [step]; rw [chatRoute_fst]; exact h
  | chatSlash m => simp only [step]; rw [handleMessageCommand_fst]; exact h
  | fragment m => simp only [step]; rw [observeFragment_fst]; exact h

theorem runFrom_oneInFlight (s : BotState) (es : List Event) (h : OneInFlight s) :
    OneInFlight (runFrom s es) := by
  induction es generalizing s with
  | nil => exact h
  | cons e es ih =>
    rw [runFrom_cons]
    exact ih _ (step_oneInFlight s e h)

/-! ### Invariant: the attempt counter never exceeds the bound -/

/-- The reconnect counter stays within the configured budget. -/
def AttemptsBounded (s : BotState) : Prop :=
  s.reconnectAttempts ≤ s.maxReconnectAttempts

theorem attemptReconnect_bounded (s : BotState) (h : AttemptsBounded s) :
    AttemptsBounded (attemptReconnect s) := by
  unfold AttemptsBounded at h ⊢
  unfold attemptReconnect
  split_ifs with h1 h2 h3
  · exact h
  · exact h
  · exact h
  · show s.reconnectAttempts + 1 ≤ s.maxReconnectAttempts
    omega

theorem step_bounded (s : BotState) (e : Event) (h : AttemptsBounded s) :
    AttemptsBounded (step s e) := by
  cases e with
  | joinHttp =>
    simp only [step, connectRoute]
    split_ifs with hc
    · exact h
    · unfold AttemptsBounded
      rw [connectToMinecraft_reconnectAttempts, connectToMinecraft_max]
      exact Nat.zero_le _
  | joinSlash =>
    simp only [step, handleConnectCommand]
    split_ifs with hc
    · exact h
    · unfold AttemptsBounded
      rw [connectToMinecraft_reconnectAttempts, connectToMinecraft_max]
      exact Nat.zero_le _
  | joinReaction =>
    simp only [step, reactionJoin]
    unfold AttemptsBounded
    rw [connectToMinecraft_reconnectAttempts, connectToMinecraft_max]
    exact Nat.zero_le _
  | leaveHttp => exact Nat.zero_le _
  | leaveSlash =>
    simp only [step, handleDisconnectCommand]
    split_ifs with hc
    · exact h
    · exact Nat.zero_le _
  | leaveReaction => exact Nat.zero_le _
  | login u d =>
    simp only [step]
    split_ifs with hc
    · exact Nat.zero_le _
    · exact h
  | endEv =>
    simp only [step, endHandler]
    split_ifs with hj
    · exact attemptReconnect_bounded _ h
    · exact h
  | errorEv =>
    simp only [step, errorHandler]
    split_ifs with hj
    · exact attemptReconnect_bounded _ h
    · exact h
  | kicked =>
    simp only [step, kickedHandler]
    split_ifs with hj
    · exact attemptReconnect_bounded _ h
    · exact h
  | timerFire =>
    simp only [step, reconnectTimerFire]
    split_ifs with h0 hg
    · exact h
    · unfold AttemptsBounded
      rw [connectToMinecraft_reconnectAttempts, connectToMinecraft_max]
      exact h
    · exact h
  | authPending url code => exact h
  | moveEv c =>
    simp only [step, moveHandler]
    split_ifs with hb
    · exact h
    · exact h
  | respawnEv w =>
    simp only [step, respawnHandler]
    split_ifs with hb
    · exact h
    · exact h
  | chatHttp m => simp only [step]; rw [chatRoute_fst]; exact h
  | chatSlash m => simp only [step]; rw [handleMessageCommand_fst]; exact h
  | fragment m => simp only [step]; rw [observeFragment_fst]; exact h

theorem runFrom_bounded (s : BotState) (es : List Event) (h : AttemptsBounded s) :
    AttemptsBounded (runFrom s es) := by
  induction es generalizing s with
  | nil => exact h
  | cons e es ih =>
    rw [runFrom_cons]
    exact ih _ (step_bounded s e h)

/-! ### Invariant: a leave always quits the bot before clearing intent -/

/-- Whenever operator intent is off (`shouldJoin = false`) while the
session still looks alive (`isConnecting` or `isConnected`), the bot
object has already been quit and nulled.  This is the inductive core of
the connected-implies-shouldJoin analysis. -/
def QuitOnLeave (s : BotState) : Prop :=
  (s.isConnecting = true → s.shouldJoin = false → s.hasBot = false) ∧
  (s.isConnected = true → s.shouldJoin = false → s.hasBot = false)

theorem step_quitOnLeave (s : BotState) (e : Event) (h : QuitOnLeave s) :
    QuitOnLeave (step s e) := by
  obtain ⟨h1, h2⟩ := h
  cases e with
  | joinHttp =>
    simp only [step, connectRoute]
    split_ifs with hc
    · exact ⟨h1, h2⟩
    · constructor <;>
        · intro ha hb
          exfalso
          revert hb
          simp [connectToMinecraft]
          split_ifs <;> simp
  | joinSlash =>
    simp only [step, handleConnectCommand]
    split_ifs with hc
    · exact ⟨h1, h2⟩
    · constructor <;>
        · intro ha hb
          exfalso
          revert hb
          simp [connectToMinecraft]
          split_ifs <;> simp
  | joinReaction =>
    simp only [step, reactionJoin]
    constructor <;>
      · intro ha hb
        exfalso
        revert hb
        simp [connectToMinecraft]
        split_ifs <;> simp
  | leaveHttp => simp [step, disconnectRoute, QuitOnLeave]
  | leaveSlash =>
    simp only [step, handleDisconnectCommand]
    split_ifs with hc
    · exact ⟨h1, h2⟩
    · simp [QuitOnLeave]
  | leaveReaction => simp [step, reactionLeave, QuitOnLeave]
  | login u d =>
    simp only [step]
    split_ifs with hc
    · refine ⟨by simp [loginHandler], ?_⟩
      intro _ hb
      simp only [loginHandler] at hb ⊢
      exact h1 hc hb
    · exact ⟨h1, h2⟩
  | endEv =>
    simp only [step, endHandler]
    split_ifs with hj
    · constructor
      · rw [attemptReconnect_isConnecting]
        intro ha
        simp at ha
      · rw [attemptReconnect_isConnected]
        intro ha
        simp at ha
    · simp [QuitOnLeave]
  | errorEv =>
    simp only [step, errorHandler]
    split_ifs with hj
    · constructor
      · rw [attemptReconnect_isConnecting]
        intro ha
        simp at ha
      · rw [attemptReconnect_isConnected]
        intro ha
        simp at ha
    · simp [QuitOnLeave]
  | kicked =>
    simp only [step, kickedHandler]
    split_ifs with hj
    · constructor
      · rw [attemptReconnect_isConnecting]
        intro ha
        simp at ha
      · rw [attemptReconnect_isConnected]
        intro ha
        simp at ha
    · simp [QuitOnLeave]
  | timerFire =>
    simp only [step, reconnectTimerFire]
    split_ifs with h0 hg
    · exact ⟨h1, h2⟩
    · constructor <;>
        · intro ha hb
          exfalso
          revert hb
          simp [connectToMinecraft]
          split_ifs <;> simp_all
    · exact ⟨h1, h2⟩
  | authPending url code => exact ⟨h1, h2⟩
  | moveEv c =>
    simp only [step, moveHandler]
    split_ifs with hb
    · exact ⟨h1, h2⟩
    · exact ⟨h1, h2⟩
  | respawnEv w =>
    simp only [step, respawnHandler]
    split_ifs with hb
    · exact ⟨h1, h2⟩
    · exact ⟨h1, h2⟩
  | chatHttp m => simp only [step]; rw [chatRoute_fst]; exact ⟨h1, h2⟩
  | chatSlash m => simp only [step]; rw [handleMessageCommand_fst]; exact ⟨h1, h2⟩
  | fragment m => simp only [step]; rw [observeFragment_fst]; exact ⟨h1, h2⟩

theorem runFrom_quitOnLeave (s : BotState) (es : List Event) (h : QuitOnLeave s) :
    QuitOnLeave (runFrom s es) := by
  induction es generalizing s with
  | nil => exact h
  | cons e es ih =>
    rw [runFrom_cons]
    exact ih _ (step_quitOnLeave s e h)

/-! ### After a leave, and absent any join, no further connect call -/

theorem step_noJoin (s : BotState) (e : Event)
    (hs : s.shouldJoin = false) (he : isJoinEvent e = false) :
    (step s e).shouldJoin = false ∧ (step s e).connectCalls = s.connectCalls := by
  cases e with
  | joinHttp => simp [isJoinEvent] at he
  | joinSlash => simp [isJoinEvent] at he
  | joinReaction => simp [isJoinEvent] at he
  | leaveHttp => exact ⟨rfl, rfl⟩
  | leaveSlash =>
    simp only [step, handleDisconnectCommand]
    split_ifs with hc
    · exact ⟨hs, rfl⟩
    · exact ⟨rfl, rfl⟩
  | leaveReaction => exact ⟨rfl, rfl⟩
  | login u d =>
    simp only [step]
    split_ifs with hc
    · exact ⟨hs, rfl⟩
    · exact ⟨hs, rfl⟩
  | endEv =>
    simp only [step, endHandler]
    split_ifs with hj
    · simp [hs] at hj
    · exact ⟨hs, rfl⟩
  | errorEv =>
    simp only [step, errorHandler]
    split_ifs with hj
    · simp [hs] at hj
    · exact ⟨hs, rfl⟩
  | kicked =>
    simp only [step, kickedHandler]
    split_ifs with hj
    · simp [hs] at hj
    · exact ⟨hs, rfl⟩
  | timerFire =>
    simp only [step, reconnectTimerFire]
    split_ifs with h0 hg
    · exact ⟨hs, rfl⟩
    · exfalso; simp [hs] at hg
    · exact ⟨hs, rfl⟩
  | authPending url code => exact ⟨hs, rfl⟩
  | moveEv c =>
    simp only [step, moveHandler]
    split_ifs with hb
    · exact ⟨hs, rfl⟩
    · exact ⟨hs, rfl⟩
  | respawnEv w =>
    simp only [step, respawnHandler]
    split_ifs with hb
    · exact ⟨hs, rfl⟩
    · exact ⟨hs, rfl⟩
  | chatHttp m =>
    simp only [step]; rw [chatRoute_fst]; exact ⟨hs, rfl⟩
  | chatSlash m =>
    simp only [step]; rw [handleMessageCommand_fst]; exact ⟨hs, rfl⟩
  | fragment m =>
    simp only [step]; rw [observeFragment_fst]; exact ⟨hs, rfl⟩

theorem runFrom_noJoin (s : BotState) (es : List Event)
    (hs : s.shouldJoin = false) (hes : ∀ e ∈ es, isJoinEvent e = false) :
    (runFrom s es).shouldJoin = false ∧
    (runFrom s es).connectCalls = s.connectCalls := by
  induction es generalizing s with
  | nil => exact ⟨hs, rfl⟩
  | cons e es ih =>
    rw [runFrom_cons]
    have h1 := step_noJoin s e hs (hes e (by simp))
    have h2 := ih (step s e) h1.1 (fun x hx => hes x (by simp [hx]))
    exact ⟨h2.1, h2.2.trans h1.2⟩

/-! ### Claim C1 -/

/-- C1: across every sequence of join and leave intents and lifecycle
events, at most one underlying `mineflayer.createBot` call is outstanding
at a time; `connectToMinecraft` returns the state unchanged (no bot
created) while `isConnecting` is set, so a join intent arriving while an
attempt is in flight never issues a second connect call. -/
theorem single_connect_outstanding :
    (∀ es : List Event, (run es).outstanding ≤ 1) ∧
    (∀ s : BotState, s.isConnecting = true →
      connectToMinecraft s = s ∧
      ∀ e : Event, isJoinEvent e = true →
        (step s e).connectCalls = s.connectCalls) := by
  constructor
  · intro es
    have h : OneInFlight (run es) := runFrom_oneInFlight initState es rfl
    rw [h]
    split_ifs <;> simp
  · intro s hs
    refine ⟨by simp [connectToMinecraft, hs], ?_⟩
    intro e he
    cases e
    case joinHttp =>
      simp only [step, connectRoute]
      split_ifs with hc
      · rfl
      · simp [connectToMinecraft, hs]
    case joinSlash =>
      simp only [step, handleConnectCommand]
      split_ifs with hc
      · rfl
      · simp [connectToMinecraft, hs]
    case joinReaction =>
      simp only [step, reactionJoin]
      simp [connectToMinecraft, hs]
    all_goals simp [isJoinEvent] at he

/-- Concrete state with an attempt in flight. -/
def sInFlight : BotState := { initState with isConnecting := true }

/-- Witness for `single_connect_outstanding` at a concrete in-flight
state and a concrete join event. -/
theorem single_connect_outstanding_witness :
    connectToMinecraft sInFlight = sInFlight ∧
    (step sInFlight Event.joinReaction).connectCalls
      = sInFlight.connectCalls := by
  have h := single_connect_outstanding.2 sInFlight rfl
  exact ⟨h.1, h.2 Event.joinReaction rfl⟩

/-! ### Claim C2 -/

/-- C2: in every reachable state `reconnectAttempts` is at most
`maxReconnectAttempts`; and running the reconnect policy with the counter
already at the bound (operator intent still on, no attempt in flight)
only clears `shouldJoin` - no timer is scheduled, no connect call is
made, the connection flags are untouched. -/
theorem reconnect_attempts_bounded :
    (∀ es : List Event,
      (run es).reconnectAttempts ≤ (run es).maxReconnectAttempts) ∧
    (∀ s : BotState, s.shouldJoin = true → s.isConnecting = false →
      s.maxReconnectAttempts ≤ s.reconnectAttempts →
      attemptReconnect s = { s with shouldJoin := false }) := by
  constructor
  · intro es
    exact runFrom_bounded initState es (Nat.zero_le _)
  · intro s h1 h2 h3
    simp [attemptReconnect, h1, h2, h3]

/-- Concrete state with the reconnect budget exhausted. -/
def sExhausted : BotState :=
  { initState with shouldJoin := true, reconnectAttempts := 10000 }

/-- Witness for `reconnect_attempts_bounded` at a concrete exhausted
state. -/
theorem reconnect_attempts_bounded_witness :
    attemptReconnect sExhausted = { sExhausted with shouldJoin := false } :=
  reconnect_attempts_bounded.2 sExhausted rfl rfl (by decide)

/-! ### Claim C3 -/

/-- The C3 scenario configuration: `maxReconnectAttempts = 3`. -/
def initMax3 : BotState := { initState with maxReconnectAttempts := 3 }

/-- A join followed by three consecutive connection failures, each
pending backoff timer firing in between. -/
def failThriceTrace : List Event :=
  [Event.joinHttp, Event.endEv, Event.timerFire, Event.endEv,
   Event.timerFire, Event.endEv]

/-- C3 counterexample: with `maxReconnectAttempts = 3`, after a join and
three consecutive connection failures `shouldJoin` is still true, the
status text is the reconnecting text (attempt 3/3) rather than the
disconnected text, and when the still-pending backoff timer fires a
fourth `mineflayer.createBot` call is issued. -/
theorem three_failures_do_not_stop :
    (runFrom initMax3 failThriceTrace).shouldJoin = true ∧
    getStatusText (runFrom initMax3 failThriceTrace)
      = "🔄 Reconnecting... (3/3)" ∧
    getStatusText (runFrom initMax3 failThriceTrace) ≠ "❌ Disconnected" ∧
    (runFrom initMax3 failThriceTrace).connectCalls = 3 ∧
    (runFrom initMax3 (failThriceTrace ++ [Event.timerFire])).connectCalls
      = 4 := by
  have h : getStatusText (runFrom initMax3 failThriceTrace)
      = "🔄 Reconnecting... (3/3)" := rfl
  refine ⟨rfl, h, ?_, rfl, rfl⟩
  rw [h]
  decide

/-- The C3 scenario continued to the fourth consecutive failure. -/
def failFourTrace : List Event :=
  failThriceTrace ++ [Event.timerFire, Event.endEv]

/-- C3 amended: the budget takes effect one failure later than claimed.
After a join and FOUR consecutive failures with `maxReconnectAttempts =
3`, `shouldJoin` is false, the status text is the disconnected text,
exactly four connect calls were made in total, no timer is pending, and
any number of further timer fires issues no further connect call. -/
theorem four_failures_stop :
    (runFrom initMax3 failFourTrace).shouldJoin = false ∧
    getStatusText (runFrom initMax3 failFourTrace) = "❌ Disconnected" ∧
    (runFrom initMax3 failFourTrace).connectCalls = 4 ∧
    (runFrom initMax3 failFourTrace).pendingTimers = 0 ∧
    ∀ n : Nat,
      (runFrom (runFrom initMax3 failFourTrace)
        (List.replicate n Event.timerFire)).connectCalls = 4 := by
  refine ⟨rfl, rfl, rfl, rfl, ?_⟩
  intro n
  have hfix : step (runFrom initMax3 failFourTrace) Event.timerFire
      = runFrom initMax3 failFourTrace := rfl
  induction n with
  | zero => rfl
  | succ n ih =>
    rw [List.replicate_succ, runFrom_cons, hfix]
    exact ih

/-! ### Claim C4 -/

/-- C4: an explicit leave that clears `shouldJoin` (HTTP
`POST /disconnect`, the ❌ reaction, or the `/disconnect` slash command
while connected) is never followed by a connect call, whatever pending
backoff timers later fire, as long as no new join intent arrives. -/
theorem leave_cancels_pending_reconnects :
    ∀ (s : BotState) (es : List Event),
      (∀ e ∈ es, isJoinEvent e = false) →
      (runFrom (disconnectRoute s) es).connectCalls = s.connectCalls ∧
      (runFrom (reactionLeave s) es).connectCalls = s.connectCalls ∧
      (s.isConnected = true →
        (runFrom (handleDisconnectCommand s) es).connectCalls
          = s.connectCalls) := by
  intro s es hes
  refine ⟨(runFrom_noJoin (disconnectRoute s) es rfl hes).2,
          (runFrom_noJoin (reactionLeave s) es rfl hes).2, ?_⟩
  intro hc
  have hsj : (handleDisconnectCommand s).shouldJoin = false := by
    simp [handleDisconnectCommand, hc]
  have hcc : (handleDisconnectCommand s).connectCalls = s.connectCalls := by
    simp only [handleDisconnectCommand]
    split_ifs <;> rfl
  have h := runFrom_noJoin (handleDisconnectCommand s) es hsj hes
  rw [h.2, hcc]

/-- Concrete state waiting out a reconnect backoff. -/
def sPendingWait : BotState :=
  { initState with shouldJoin := true, reconnectAttempts := 1,
                   pendingTimers := 1 }

/-- Witness for `leave_cancels_pending_reconnects`: a leave during the
backoff wait, then the pending timer fires, and no connect call is
made. -/
theorem leave_cancels_pending_reconnects_witness :
    (runFrom (disconnectRoute sPendingWait) [Event.timerFire]).connectCalls
      = sPendingWait.connectCalls :=
  (leave_cancels_pending_reconnects sPendingWait [Event.timerFire]
    (by decide)).1

/-! ### Claim C5 -/

theorem initState_quitOnLeave : QuitOnLeave initState := by
  constructor <;> intro h <;> simp [initState] at h

/-- The leave-while-connected trace of C5: join, successful login, then a
`/disconnect` slash command while connected. -/
def leaveWhileConnectedTrace : List Event :=
  [Event.joinHttp, Event.login "Bot" true, Event.leaveSlash]

/-- C5 counterexample: a reachable state with `isConnected` still true
and `shouldJoin` false - the leave handler clears `shouldJoin` and quits
the bot but does not clear `isConnected`; only the later `end` event
does. -/
theorem connected_without_shouldJoin :
    (run leaveWhileConnectedTrace).isConnected = true ∧
    (run leaveWhileConnectedTrace).shouldJoin = false := ⟨rfl, rfl⟩

/-- C5 amended: in every reachable state, `isConnected` together with a
present bot object implies `shouldJoin`; a leave issued while connected
immediately quits and nulls the bot, so the violation window left by the
counterexample has `minecraftBot = null`, and `isConnected` alone does
not imply `shouldJoin` there. -/
theorem connected_with_bot_implies_shouldJoin :
    ∀ es : List Event,
      (run es).isConnected = true → (run es).hasBot = true →
      (run es).shouldJoin = true := by
  intro es h1 h2
  have hq : QuitOnLeave (run es) :=
    runFrom_quitOnLeave initState es initState_quitOnLeave
  cases h : (run es).shouldJoin with
  | false =>
    have hb := hq.2 h1 h
    rw [h2] at hb
    exact Bool.noConfusion hb
  | true => rfl

/-- Witness for `connected_with_bot_implies_shouldJoin` on the concrete
trace join-then-login. -/
theorem connected_with_bot_implies_shouldJoin_witness :
    (run [Event.joinHttp, Event.login "Bot" true]).shouldJoin = true :=
  connected_with_bot_implies_shouldJoin
    [Event.joinHttp, Event.login "Bot" true] rfl rfl

/-! ### Claim C6 -/

/-- Concrete state: a reconnect attempt in flight with a nonzero
counter. -/
def sConnectingRetry : BotState :=
  { initState with isConnecting := true, shouldJoin := true,
                   reconnectAttempts := 2 }

/-- C6 counterexample: a `/connect` arriving while `isConnecting` (and
not connected) is not a no-op - it resets `reconnectAttempts` from 2 to
0, though it spawns no second connect call. -/
theorem join_while_connecting_resets_counter :
    handleConnectCommand sConnectingRetry ≠ sConnectingRetry ∧
    (handleConnectCommand sConnectingRetry).reconnectAttempts = 0 ∧
    sConnectingRetry.reconnectAttempts = 2 ∧
    (handleConnectCommand sConnectingRetry).connectCalls
      = sConnectingRetry.connectCalls := by
  refine ⟨?_, rfl, rfl, rfl⟩
  decide

/-- C6 amended: a join while already Connected is a full no-op; a join
while Connecting spawns no second connection and leaves every field
unchanged except `shouldJoin` (set to true) and `reconnectAttempts`
(reset to 0). -/
theorem join_while_active :
    ∀ s : BotState,
      (s.isConnected = true →
        handleConnectCommand s = s ∧ connectRoute s = s) ∧
      (s.isConnected = false → s.isConnecting = true →
        handleConnectCommand s
          = { s with shouldJoin := true, reconnectAttempts := 0 } ∧
        connectRoute s
          = { s with shouldJoin := true, reconnectAttempts := 0 }) := by
  intro s
  constructor
  · intro hc
    exact ⟨by simp [handleConnectCommand, hc], by simp [connectRoute, hc]⟩
  · intro hc hg
    constructor
    · simp [handleConnectCommand, hc, connectToMinecraft, hg]
    · simp [connectRoute, hc, connectToMinecraft, hg]

/-- Concrete already-connected state. -/
def sConn : BotState := { initState with isConnected := true }

/-- Witness for `join_while_active` at concrete connected and connecting
states. -/
theorem join_while_active_witness :
    handleConnectCommand sConn = sConn ∧
    handleConnectCommand sConnectingRetry
      = { sConnectingRetry with shouldJoin := true,
                                reconnectAttempts := 0 } :=
  ⟨((join_while_active sConn).1 rfl).1,
   ((join_while_active sConnectingRetry).2 rfl rfl).1⟩

/-! ### Claim C7 -/

/-- Concrete state after the ✅ reaction set up the challenge plumbing. -/
def sChallengeActive : BotState :=
  { initState with lastAuthUser := true, authMessage := true }

/-- A side-channel fragment carrying an auth code. -/
def authFragment : String :=
  "To sign in, use a web browser to open the page https://www.microsoft.com/link and use the code AB12CD to authenticate."

/-- C7 counterexample: the same fragment fed twice is reported twice -
`extractAuthDetails` keeps no dedup state, so the identical second
delivery publishes the code again while the challenge is active. -/
theorem identical_fragment_reported_twice :
    (observeFragment sChallengeActive authFragment).2 = some "AB12CD" ∧
    (observeFragment (observeFragment sChallengeActive authFragment).1
        authFragment).2 = some "AB12CD" := ⟨rfl, rfl⟩

/-- C7 amended: observing a fragment never mutates the detector state,
so an identical subsequent fragment yields the identical report again;
no report is produced while `authMessage` is absent, and on connection
success `login` clears `authMessage` only when the Discord delete of the
auth message succeeds - when the delete fails, `authMessage` stays set
and reports can continue. -/
theorem detector_rereports_until_cleared :
    ∀ (s : BotState) (m : String),
      (observeFragment s m).1 = s ∧
      (observeFragment (observeFragment s m).1 m).2
        = (observeFragment s m).2 ∧
      (s.authMessage = false → (observeFragment s m).2 = none) ∧
      ∀ u : String,
        (loginHandler s u true).authMessage = false ∧
        (loginHandler s u false).authMessage = s.authMessage := by
  intro s m
  refine ⟨observeFragment_fst s m, by rw [observeFragment_fst], ?_,
          fun u => ⟨rfl, rfl⟩⟩
  intro hm
  simp only [observeFragment]
  split_ifs with hg
  · cases hf : findCode m.data with
    | none => simp [extractAuthDetails, hf]
    | some c => simp [extractAuthDetails, hf, hm]
  · rfl

/-- Witness for `detector_rereports_until_cleared` at the constructor
state (no challenge active) and the concrete fragment. -/
theorem detector_rereports_until_cleared_witness :
    (observeFragment initState authFragment).1 = initState ∧
    (observeFragment initState authFragment).2 = none :=
  ⟨(detector_rereports_until_cleared initState authFragment).1,
   (detector_rereports_until_cleared initState authFragment).2.2.1 rfl⟩

/-! ### Claim C8 -/

/-- C8: a chat-send intent (HTTP `POST /chat` or the `/message` slash
command) is rejected with the not-connected error whenever the session is
not connected, and the rejection returns the state unchanged. -/
theorem send_rejected_when_not_connected :
    ∀ (s : BotState) (mo : Option String) (m : String),
      s.isConnected = false →
      chatRoute s mo = (s, ChatResult.notConnected) ∧
      handleMessageCommand s m = (s, ChatResult.notConnected) := by
  intro s mo m hc
  constructor
  · cases mo <;> simp [chatRoute, hc]
  · simp [handleMessageCommand, hc]

/-- Witness for `send_rejected_when_not_connected` at the constructor
state. -/
theorem send_rejected_when_not_connected_witness :
    chatRoute initState (some "hello")
      = (initState, ChatResult.notConnected) ∧
    handleMessageCommand initState "hello"
      = (initState, ChatResult.notConnected) :=
  send_rejected_when_not_connected initState (some "hello") "hello" rfl

/-! ### Claim C9 -/

/-- Concrete state with `isConnected` true but the bot object null
(reachable by a leave issued while connected). -/
def sConnectedNoBot : BotState :=
  { initState with isConnected := true, username := "Steve" }

/-- C9 counterexample: at a state with `isConnected` true and
`minecraftBot` null, the five-level precedence of the claim yields the
connected text while `getStatusText` returns the disconnected text - the
code requires the bot object to be present, not just the flag. -/
theorem status_precedence_mismatch :
    specStatusText sConnectedNoBot = "✅ Connected as Steve" ∧
    getStatusText sConnectedNoBot = "❌ Disconnected" ∧
    specStatusText sConnectedNoBot ≠ getStatusText sConnectedNoBot := by
  refine ⟨rfl, rfl, ?_⟩
  decide

/-- C9 amended: on every state in which the bot object is present
whenever `isConnected` is set, `getStatusText` implements exactly the
claimed five-level precedence. -/
theorem status_precedence_with_bot :
    ∀ s : BotState, (s.isConnected = true → s.hasBot = true) →
      getStatusText s = specStatusText s := by
  intro s h
  by_cases hA : (s.authUrl.isSome && s.userCode.isSome) = true
  · simp [getStatusText, specStatusText, hA]
  · have hA2 : (s.authUrl.isSome && s.userCode.isSome) = false := by
      simpa using hA
    cases hC : s.isConnected with
    | true =>
      have hB := h hC
      simp [getStatusText, specStatusText, hA2, hC, hB]
    | false =>
      cases hJ : s.shouldJoin with
      | false => simp [getStatusText, specStatusText, hA2, hC, hJ]
      | true =>
        by_cases hR : 0 < s.reconnectAttempts
        · simp [getStatusText, specStatusText, hA2, hC, hJ, hR]
        · simp [getStatusText, specStatusText, hA2, hC, hJ, hR]

/-- Witness for `status_precedence_with_bot` at the constructor state. -/
theorem status_precedence_with_bot_witness :
    getStatusText initState = specStatusText initState :=
  status_precedence_with_bot initState (by decide)

/-! ### Claim C10 -/

theorem connectToMinecraft_lastAuthUser (s : BotState) :
    (connectToMinecraft s).lastAuthUser = s.lastAuthUser := by
  simp only [connectToMinecraft]; split_ifs <;> rfl

theorem attemptReconnect_lastAuthUser (s : BotState) :
    (attemptReconnect s).lastAuthUser = s.lastAuthUser := by
  simp only [attemptReconnect]; split_ifs <;> rfl

theorem step_noReaction (s : BotState) (e : Event)
    (hs : s.lastAuthUser = false) (he : e ≠ Event.joinReaction) :
    (step s e).lastAuthUser = false := by
  cases e with
  | joinReaction => exact absurd rfl he
  | joinHttp =>
    simp only [step, connectRoute]
    split_ifs with hc
    · exact hs
    · rw [connectToMinecraft_lastAuthUser]; exact hs
  | joinSlash =>
    simp only [step, handleConnectCommand]
    split_ifs with hc
    · exact hs
    · rw [connectToMinecraft_lastAuthUser]; exact hs
  | leaveHttp => exact hs
  | leaveSlash =>
    simp only [step, handleDisconnectCommand]
    split_ifs with hc
    · exact hs
    · exact hs
  | leaveReaction => exact hs
  | login u d =>
    simp only [step]
    split_ifs with hc
    · exact hs
    · exact hs
  | endEv =>
    simp only [step, endHandler]
    split_ifs with hj
    · rw [attemptReconnect_lastAuthUser]; exact hs
    · exact hs
  | errorEv =>
    simp only [step, errorHandler]
    split_ifs with hj
    · rw [attemptReconnect_lastAuthUser]; exact hs
    · exact hs
  | kicked =>
    simp only [step, kickedHandler]
    split_ifs with hj
    · rw [attemptReconnect_lastAuthUser]; exact hs
    · exact hs
  | timerFire =>
    simp only [step, reconnectTimerFire]
    split_ifs with h0 hg
    · exact hs
    · rw [connectToMinecraft_lastAuthUser]; exact hs
    · exact hs
  | authPending url code => exact hs
  | moveEv c =>
    simp only [step, moveHandler]
    split_ifs with hb
    · exact hs
    · exact hs
  | respawnEv w =>
    simp only [step, respawnHandler]
    split_ifs with hb
    · exact hs
    · exact hs
  | chatHttp m => simp only [step]; rw [chatRoute_fst]; exact hs
  | chatSlash m => simp only [step]; rw [handleMessageCommand_fst]; exact hs
  | fragment m => simp only [step]; rw [observeFragment_fst]; exact hs

theorem runFrom_noReaction :
    ∀ (es : List Event) (s : BotState), s.lastAuthUser = false →
      (∀ e ∈ es, e ≠ Event.joinReaction) →
      (runFrom s es).lastAuthUser = false := by
  intro es
  induction es with
  | nil => intro s hs _; exact hs
  | cons e es ih =>
    intro s hs hes
    rw [runFrom_cons]
    exact ih _ (step_noReaction s e hs (hes e (by simp)))
      (fun x hx => hes x (by simp [hx]))

theorem extract_requires_challenge (s : BotState) (m : String)
    (hs : s.lastAuthUser = false) : extractAuthDetails s m = none := by
  cases hf : findCode m.data <;> simp [extractAuthDetails, hf, hs]

/-- C10: along any event sequence containing no ✅ reaction,
`lastAuthUser` stays null (only the reaction handler sets it), so a
matching side-channel fragment observed after joins made only via HTTP
`POST /connect` or the `/connect` slash command publishes no
challenge. -/
theorem http_join_publishes_no_challenge :
    ∀ (es : List Event) (m : String),
      (∀ e ∈ es, e ≠ Event.joinReaction) →
      (run es).lastAuthUser = false ∧
      extractAuthDetails (run es) m = none ∧
      (observeFragment (run es) m).2 = none := by
  intro es m hes
  have h := runFrom_noReaction es initState rfl hes
  refine ⟨h, extract_requires_challenge _ m h, ?_⟩
  simp only [observeFragment]
  split_ifs with hg
  · simpa using extract_requires_challenge _ m h
  · rfl

/-- Witness for `http_join_publishes_no_challenge`: after an HTTP join,
the concrete matching fragment publishes nothing. -/
theorem http_join_publishes_no_challenge_witness :
    (run [Event.joinHttp]).lastAuthUser = false ∧
    (observeFragment (run [Event.joinHttp]) authFragment).2 = none := by
  have h := http_join_publishes_no_challenge [Event.joinHttp] authFragment
    (by decide)
  exact ⟨h.1, h.2.2⟩
